import Mathlib

/-!
Verification of the generic DAO / session layer and the auth feature of the
`fourier` backend, shallowly embedded in Lean 4.

Modelling conventions
* A pydantic model that has been dumped with `exclude_unset=True` is an
  association list `List (String × Val)`; its list of keys is the model's
  set of set fields.
* A generic ORM entity (`cls.model(**values_dict)`) is likewise an
  association list `Rec`.
* A SQLAlchemy `AsyncSession` is a `Session`: the backing store (a list of
  records), a `rolledBack` flag recording whether `session.rollback()` was
  called, and `execs`, the number of data-layer calls (`session.execute` /
  `session.flush`) issued so far.
* Python exceptions that cross the operations' boundaries are the `PyError`
  type: `http status detail` models a `fastapi.HTTPException`, `valueError`
  models `ValueError`, `dbError` models `sqlalchemy.exc.SQLAlchemyError`
  (including `MultipleResultsFound`, raised by `scalar_one_or_none` when a
  query returns more than one row).
* Each DAO operation takes a `dbFail : Bool` meaning: the first data-layer
  call issued by the operation raises `SQLAlchemyError`.  This models the
  `except SQLAlchemyError` handlers of `fourier/dao/base.py`.
* `datetime` values are integers counting seconds; `timedelta(days=30)` is
  `30 * 86400` seconds.
-/

/-- A value stored in an entity field or used in a filter: an integer or a
string column value. -/
inductive Val where
  | i : Int → Val
  | s : String → Val
deriving DecidableEq

/-- A generic ORM record: field name to value.  `exclude_unset` pydantic
dumps use the same shape. -/
abbrev Rec := List (String × Val)

/-- A dumped filter/values dict (`model_dump(exclude_unset=True)`). -/
abbrev Filt := List (String × Val)

/-- Python exceptions crossing the boundaries of the embedded operations. -/
inductive PyError where
  | http : Nat → String → PyError
  | valueError : String → PyError
  | dbError : PyError
deriving DecidableEq

/-- Attribute access `getattr(record, k)` / dict lookup, first binding wins. -/
def getVal (r : Rec) (k : String) : Option Val :=
  (r.find? (fun p => p.1 == k)).map (fun p => p.2)

/-- `filter_by(**filter_dict)`: the record satisfies every (column, value)
pair of the filter dict. -/
def matchesF (f : Filt) (r : Rec) : Bool :=
  f.all (fun p => getVal r p.1 == some p.2)

/-- `setattr(record, k, v)`: overwrite the binding for `k`, or append it when
the record has no such field yet. -/
def setVal (r : Rec) (k : String) (v : Val) : Rec :=
  if r.any (fun p => p.1 == k) then
    r.map (fun p => if p.1 == k then (k, v) else p)
  else
    r ++ [(k, v)]

/-- `for key, value in values_dict.items(): setattr(record, key, value)`. -/
def applyValues (r : Rec) (vs : Filt) : Rec :=
  vs.foldl (fun acc p => setVal acc p.1 p.2) r

/-- `result.scalar_one_or_none()`: `none` on zero rows, the row on one row,
and `MultipleResultsFound` (a `SQLAlchemyError`) on more than one row. -/
def scalar_one_or_none {α : Type} : List α → Except PyError (Option α)
  | [] => .ok none
  | [r] => .ok (some r)
  | _ :: _ :: _ => .error .dbError

/-- A SQLAlchemy `AsyncSession` over a store of generic records. -/
structure Session where
  store : List Rec
  rolledBack : Bool
  execs : Nat
deriving DecidableEq

/-- One data-layer call (`session.execute` or `session.flush`) is issued. -/
def issue (s : Session) : Session :=
  { s with execs := s.execs + 1 }

/-- `await session.rollback()`. -/
def sessionRollback (s : Session) : Session :=
  { s with rolledBack := true }

/-- Largest integer primary key present in the store (0 when none). -/
def maxId (l : List Rec) : Int :=
  l.foldl
    (fun m r =>
      match getVal r "id" with
      | some (Val.i n) => max m n
      | _ => m)
    0

/-- The autoincrement primary key assigned by the store at flush time when
the new instance carries no `id` of its own. -/
def assignId (store : List Rec) (values : Rec) : Rec :=
  if (getVal values "id").isSome then values
  else values ++ [("id", Val.i (maxId store + 1))]

/-- `BaseDAO.find_one_or_none_by_id` (fourier/dao/base.py): select by primary
key, `scalar_one_or_none`; a `SQLAlchemyError` is logged and re-raised with
no rollback. -/
def find_one_or_none_by_id (dbFail : Bool) (data_id : Int) (s : Session) :
    Except PyError (Option Rec) × Session :=
  let s1 := issue s
  if dbFail then (.error .dbError, s1)
  else (scalar_one_or_none (s.store.filter (matchesF [("id", Val.i data_id)])), s1)

/-- `BaseDAO.find_one_or_none`: select by a dumped filter model,
`scalar_one_or_none`; a `SQLAlchemyError` is logged and re-raised with no
rollback. -/
def find_one_or_none (dbFail : Bool) (filters : Filt) (s : Session) :
    Except PyError (Option Rec) × Session :=
  let s1 := issue s
  if dbFail then (.error .dbError, s1)
  else (scalar_one_or_none (s.store.filter (matchesF filters)), s1)

/-- `BaseDAO.find_all`: select all records matching the optional filter
(`{}` when `filters` is `None`); errors re-raised with no rollback. -/
def find_all (dbFail : Bool) (filters : Option Filt) (s : Session) :
    Except PyError (List Rec) × Session :=
  let filter_dict := filters.getD []
  let s1 := issue s
  if dbFail then (.error .dbError, s1)
  else (.ok (s.store.filter (matchesF filter_dict)), s1)

/-- `BaseDAO.add`: construct the instance, `session.add`, `flush`; on
`SQLAlchemyError` roll back and re-raise. -/
def add (dbFail : Bool) (values : Rec) (s : Session) :
    Except PyError Rec × Session :=
  let new_instance := assignId s.store values
  let s1 := issue s
  if dbFail then (.error .dbError, sessionRollback s1)
  else (.ok new_instance, { s1 with store := s.store ++ [new_instance] })

/-- Sequential autoincrement assignment for `add_many`: instances without an
`id` get consecutive fresh keys at flush. -/
def assignIds (store : List Rec) (vs : List Rec) : List Rec :=
  (vs.foldl
    (fun (acc : List Rec × Int) v =>
      if (getVal v "id").isSome then (acc.1 ++ [v], acc.2)
      else (acc.1 ++ [v ++ [("id", Val.i acc.2)]], acc.2 + 1))
    ([], maxId store + 1)).1

/-- `BaseDAO.add_many`: construct all instances, `add_all`, `flush`; on
`SQLAlchemyError` roll back and re-raise. -/
def add_many (dbFail : Bool) (instances : List Rec) (s : Session) :
    Except PyError (List Rec) × Session :=
  let new_instances := assignIds s.store instances
  let s1 := issue s
  if dbFail then (.error .dbError, sessionRollback s1)
  else (.ok new_instances, { s1 with store := s.store ++ new_instances })

/-- `BaseDAO.update`: one UPDATE statement over the records matching the
filter dict, then `flush`; returns the row count; on `SQLAlchemyError` roll
back and re-raise. -/
def update (dbFail : Bool) (filters : Filt) (values : Filt) (s : Session) :
    Except PyError Nat × Session :=
  let s1 := issue s
  if dbFail then (.error .dbError, sessionRollback s1)
  else
    let rowcount := (s.store.filter (matchesF filters)).length
    let store1 := s.store.map
      (fun r => if matchesF filters r then applyValues r values else r)
    (.ok rowcount, { issue s1 with store := store1 })

/-- `BaseDAO.delete`: an empty filter dict raises `ValueError` before any
statement is built or issued; otherwise one DELETE plus `flush`, row count
returned; on `SQLAlchemyError` roll back and re-raise. -/
def delete (dbFail : Bool) (filters : Filt) (s : Session) :
    Except PyError Nat × Session :=
  if filters.isEmpty then
    (.error (.valueError "At least one filter is required for deletion."), s)
  else
    let s1 := issue s
    if dbFail then (.error .dbError, sessionRollback s1)
    else
      let rowcount := (s.store.filter (matchesF filters)).length
      (.ok rowcount,
        { issue s1 with store := s.store.filter (fun r => !(matchesF filters r)) })

/-- `BaseDAO.count`: `SELECT count(id)` over the matching records; errors
re-raised with no rollback. -/
def count (dbFail : Bool) (filters : Filt) (s : Session) :
    Except PyError Nat × Session :=
  let s1 := issue s
  if dbFail then (.error .dbError, s1)
  else (.ok (s.store.filter (matchesF filters)).length, s1)

/-- `BaseDAO.paginate`: matching records with `offset((page-1)*page_size)`
and `limit(page_size)`; errors re-raised with no rollback. -/
def paginate (dbFail : Bool) (page : Int) (page_size : Int)
    (filters : Option Filt) (s : Session) :
    Except PyError (List Rec) × Session :=
  let filter_dict := filters.getD []
  let s1 := issue s
  if dbFail then (.error .dbError, s1)
  else
    let records := ((s.store.filter (matchesF filter_dict)).drop
      ((page - 1) * page_size).toNat).take page_size.toNat
    (.ok records, s1)

/-- `BaseDAO.find_by_ids`: select the records whose `id` is in the given
list; errors re-raised with no rollback. -/
def find_by_ids (dbFail : Bool) (ids : List Int) (s : Session) :
    Except PyError (List Rec) × Session :=
  let s1 := issue s
  if dbFail then (.error .dbError, s1)
  else
    (.ok (s.store.filter
      (fun r =>
        match getVal r "id" with
        | some (Val.i n) => ids.contains n
        | _ => false)), s1)

/-- The filter dict built by `BaseDAO.upsert`:
`{field: values_dict[field] for field in unique_fields if field in values_dict}`. -/
def upsertFilter (unique_fields : List String) (values : Rec) : Filt :=
  unique_fields.filterMap (fun f => (getVal values f).map (fun v => (f, v)))

/-- Replace the first record satisfying `p` (the record found by
`find_one_or_none`, mutated in place by the ORM identity map). -/
def replaceFirst (p : Rec → Bool) (new : Rec) : List Rec → List Rec
  | [] => []
  | r :: rs => if p r then new :: rs else r :: replaceFirst p new rs

/-- `BaseDAO.upsert`: find by the unique-field subset of the values; if a
record exists, `setattr` every supplied value onto it and `flush`; otherwise
construct and `add` a new instance and `flush`.  Any `SQLAlchemyError`
inside the body is rolled back and re-raised. -/
def upsert (dbFail : Bool) (unique_fields : List String) (values : Rec)
    (s : Session) : Except PyError Rec × Session :=
  let filter_dict := upsertFilter unique_fields values
  match find_one_or_none dbFail filter_dict s with
  | (.error e, s1) => (.error e, sessionRollback s1)
  | (.ok (some existing), s1) =>
      let updated := applyValues existing values
      (.ok updated,
        { issue s1 with store := replaceFirst (matchesF filter_dict) updated s.store })
  | (.ok none, s1) =>
      let new_instance := assignId s.store values
      (.ok new_instance, { issue s1 with store := s.store ++ [new_instance] })

/-- `BaseDAO.bulk_update`: per record with an `id`, one UPDATE by primary key
of its remaining fields, summing row counts, then `flush`; on
`SQLAlchemyError` roll back and re-raise. -/
def bulk_update (dbFail : Bool) (records : List Rec) (s : Session) :
    Except PyError Nat × Session :=
  let s1 := issue s
  if dbFail then (.error .dbError, sessionRollback s1)
  else
    let step := fun (acc : List Rec × Nat) (record : Rec) =>
      match getVal record "id" with
      | none => acc
      | some idv =>
          let update_data := record.filter (fun p => !(p.1 == "id"))
          let rowcount := (acc.1.filter (matchesF [("id", idv)])).length
          (acc.1.map
            (fun r => if matchesF [("id", idv)] r then applyValues r update_data else r),
            acc.2 + rowcount)
    let res := records.foldl step (s.store, 0)
    (.ok res.2, { issue s1 with store := res.1 })

/-- A transactional session as managed by
`DatabaseSessionManager.get_transaction_session` (fourier/dao/session_maker.py):
`db` is the durable (committed) store, `view` the session's working state,
and the flags record whether `commit` / `rollback` ran. -/
structure TxSession where
  db : List Rec
  view : List Rec
  committed : Bool
  rolledBack : Bool
deriving DecidableEq

/-- `await session.commit()`: publish the session view to the durable store. -/
def commitTx (s : TxSession) : TxSession :=
  { s with db := s.view, committed := true }

/-- `await session.rollback()`: discard the session view back to the durable
store. -/
def rollbackTx (s : TxSession) : TxSession :=
  { s with view := s.db, rolledBack := true }

/-- `DatabaseSessionManager.transaction`: run the body; on normal completion
commit; on any exception roll back and re-raise the same exception. -/
def transaction (body : TxSession → Except PyError Unit × TxSession)
    (s : TxSession) : Except PyError Unit × TxSession :=
  match body s with
  | (.ok _, s1) => (.ok (), commitTx s1)
  | (.error e, s1) => (.error e, rollbackTx s1)

/-- A JWT claim value: a string claim or a datetime claim (seconds). -/
inductive Claim where
  | s : String → Claim
  | t : Int → Claim
deriving DecidableEq

/-- A JWT payload / Python dict of claims. -/
abbrev Claims := List (String × Claim)

/-- Python `dict.update({k: v})`: overwrite the binding or append it. -/
def dictSet (d : Claims) (k : String) (v : Claim) : Claims :=
  if d.any (fun p => p.1 == k) then
    d.map (fun p => if p.1 == k then (k, v) else p)
  else
    d ++ [(k, v)]

/-- Python dict lookup on a claim set. -/
def lookupClaim (d : Claims) (k : String) : Option Claim :=
  (d.find? (fun p => p.1 == k)).map (fun p => p.2)

/-- `create_access_token` (fourier/auth/auth.py): copy the supplied data and
set an `exp` claim thirty days after the issue instant; the result is the
claim set signed into the token. -/
def create_access_token (data : Claims) (now : Int) : Claims :=
  dictSet data "exp" (Claim.t (now + 30 * 86400))

/-- A `User` row (fourier/auth/models.py is consulted through its uses):
primary key, unique email, password hash, and the role relationship's id. -/
structure UserR where
  id : Int
  email : String
  password : String
  roleId : Int
deriving DecidableEq

/-- `UsersDAO.find_one_or_none` specialised to the `User` model with an
`EmailModel(email=...)` filter: filter the user store by email and apply
`scalar_one_or_none`; `dbFail` is the data layer raising. -/
def users_find_one_or_none (dbFail : Bool) (email : String)
    (users : List UserR) : Except PyError (Option UserR) :=
  if dbFail then .error .dbError
  else scalar_one_or_none (users.filter (fun u => u.email == email))

/-- `UsersDAO.find_one_or_none_by_id` specialised to the `User` model. -/
def users_find_one_or_none_by_id (dbFail : Bool) (data_id : Int)
    (users : List UserR) : Except PyError (Option UserR) :=
  if dbFail then .error .dbError
  else scalar_one_or_none (users.filter (fun u => u.id == data_id))

/-- `authenticate_user` (fourier/auth/auth.py): look the user up by email;
return `none` when the user is absent or `verify_password` rejects the
password, the user otherwise.  `verify` abstracts
`fourier.auth.utils.verify_password` (a bcrypt check, not itself modelled). -/
def authenticate_user (verify : String → String → Bool) (dbFail : Bool)
    (email password : String) (users : List UserR) :
    Except PyError (Option UserR) :=
  match users_find_one_or_none dbFail email users with
  | .error e => .error e
  | .ok none => .ok none
  | .ok (some user) =>
      if !(verify password user.password) then .ok none else .ok (some user)

/-- The login route `auth_user` (fourier/auth/router.py): authenticate; when
that yields no user raise `IncorrectEmailOrPasswordException` (401,
"Incorrect email or password"); otherwise issue a token whose data is
`{"sub": str(check.id)}` and return it (the route also sets it as a
cookie). -/
def auth_user (verify : String → String → Bool) (dbFail : Bool)
    (email password : String) (users : List UserR) (now : Int) :
    Except PyError Claims :=
  match authenticate_user verify dbFail email password users with
  | .error e => .error e
  | .ok none => .error (.http 401 "Incorrect email or password")
  | .ok (some check) =>
      .ok (create_access_token [("sub", Claim.s (toString check.id))] now)

/-- The registration route `register_user` (fourier/auth/router.py): find by
email; an existing user raises `UserAlreadyExistsException` (409,
"User already exists") before anything is inserted; otherwise drop the
confirmation field and `UsersDAO.add` the new user (fresh id; the stored
password is whatever hash the schema produced; the role takes the model's
default).  Schema validation happens before this handler and is out of its
scope. -/
def register_user (dbFail : Bool) (email password confirm_password : String)
    (users : List UserR) : Except PyError String × List UserR :=
  match users_find_one_or_none dbFail email users with
  | .error e => (.error e, users)
  | .ok (some _) => (.error (.http 409 "User already exists"), users)
  | .ok none =>
      let nid := 1 + users.foldl (fun m u => max m u.id) 0
      (.ok "You have been registered successfully!",
        users ++ [⟨nid, email, password, 1⟩])

/-- `get_current_admin_user` (fourier/auth/dependencies.py): return the user
when `current_user.role.id in [3, 4]`, otherwise raise `ForbiddenException`
(403, "Insufficient permissions"). -/
def get_current_admin_user (current_user : UserR) : Except PyError UserR :=
  if current_user.roleId == 3 || current_user.roleId == 4 then .ok current_user
  else .error (.http 403 "Insufficient permissions")

/-- What `jwt.decode` makes of the cookie value: `invalid` when decoding
raises `JWTError` (bad signature, malformed, or expired), `valid payload`
when verification succeeds and yields the claim dict (string claims). -/
inductive TokenM where
  | invalid
  | valid (payload : List (String × String))
deriving DecidableEq

/-- Dict lookup on a decoded payload. -/
def lookupS (d : List (String × String)) (k : String) : Option String :=
  (d.find? (fun p => p.1 == k)).map (fun p => p.2)

/-- Decimal digit run: the accumulated value when every character is a
digit, `none` otherwise. -/
def parseDigits (acc : Nat) : List Char → Option Nat
  | [] => some acc
  | c :: cs => if c.isDigit then parseDigits (acc * 10 + (c.toNat - 48)) cs else none

/-- Python `int(s)`: the parsed integer (optional sign, then digits), or a
`ValueError` (`none`) when the string is not a decimal integer literal. -/
def pyInt (s : String) : Option Int :=
  match s.data with
  | [] => none
  | '-' :: cs =>
      match cs with
      | [] => none
      | _ => (parseDigits 0 cs).map (fun n => -(n : Int))
  | '+' :: cs =>
      match cs with
      | [] => none
      | _ => (parseDigits 0 cs).map (fun n => (n : Int))
  | cs => (parseDigits 0 cs).map (fun n => (n : Int))

/-- `get_current_user` (fourier/auth/dependencies.py): decode the token
(`NoJwtException` on `JWTError`), read the `sub` claim (`NoUserIdException`
when absent or falsy), convert it with `int` (an uncaught `ValueError` when
non-numeric), look the user up by id (401 "User not found" when absent). -/
def get_current_user (dbFail : Bool) (token : TokenM) (users : List UserR) :
    Except PyError UserR :=
  match token with
  | .invalid => .error (.http 401 "Invalid token")
  | .valid payload =>
      match lookupS payload "sub" with
      | none => .error (.http 401 "User ID not found")
      | some user_id =>
          if user_id = "" then .error (.http 401 "User ID not found")
          else
            match pyInt user_id with
            | none => .error (.valueError ("invalid literal for int(): " ++ user_id))
            | some n =>
                match users_find_one_or_none_by_id dbFail n users with
                | .error e => .error e
                | .ok none => .error (.http 401 "User not found")
                | .ok (some user) => .ok user

/-- `get_current_user_optional` (fourier/auth/dependencies.py): missing
cookie, `JWTError`, and an absent or falsy `sub` claim all yield `none`; a
numeric `sub` is looked up and the result (possibly `none`) returned; the
`int` conversion is not guarded, so a non-numeric `sub` still raises
`ValueError`, and a data-layer error still propagates. -/
def get_current_user_optional (dbFail : Bool) (token : Option TokenM)
    (users : List UserR) : Except PyError (Option UserR) :=
  match token with
  | none => .ok none
  | some .invalid => .ok none
  | some (.valid payload) =>
      match lookupS payload "sub" with
      | none => .ok none
      | some user_id =>
          if user_id = "" then .ok none
          else
            match pyInt user_id with
            | none => .error (.valueError ("invalid literal for int(): " ++ user_id))
            | some n =>
                match users_find_one_or_none_by_id dbFail n users with
                | .error e => .error e
                | .ok user => .ok user

/-- C1 counterexample: with the data layer failing, `find_one_or_none_by_id`
re-raises the data-layer error while the session's rollback flag stays
false — the operation does not perform a session rollback before
re-raising. -/
theorem C1_counterexample :
    (find_one_or_none_by_id true 1 ⟨[], false, 0⟩).1 = Except.error PyError.dbError ∧
    (find_one_or_none_by_id true 1 ⟨[], false, 0⟩).2.rolledBack = false :=
  ⟨rfl, rfl⟩

/-- C1 (amended): when a data-layer call raises, the mutating DAO operations
(add, add-many, update-by-filter, delete-by-filter, upsert, bulk-update)
roll the session back before re-raising the error, while the read
operations (find-by-id, find-one-by-filter, find-all, count, paginate,
find-by-id-list) re-raise the error without any rollback. -/
theorem C1_amended (s : Session) (h : s.rolledBack = false)
    (i : Int) (ids : List Int) (fs : Filt) (hfs : fs ≠ [])
    (f2 : Filt) (fo : Option Filt) (vs : Rec) (vls : List Rec)
    (uf : List String) (page psize : Int) :
    ((find_one_or_none_by_id true i s).1 = .error .dbError ∧
      (find_one_or_none_by_id true i s).2.rolledBack = false) ∧
    ((find_one_or_none true f2 s).1 = .error .dbError ∧
      (find_one_or_none true f2 s).2.rolledBack = false) ∧
    ((find_all true fo s).1 = .error .dbError ∧
      (find_all true fo s).2.rolledBack = false) ∧
    ((count true f2 s).1 = .error .dbError ∧
      (count true f2 s).2.rolledBack = false) ∧
    ((paginate true page psize fo s).1 = .error .dbError ∧
      (paginate true page psize fo s).2.rolledBack = false) ∧
    ((find_by_ids true ids s).1 = .error .dbError ∧
      (find_by_ids true ids s).2.rolledBack = false) ∧
    ((add true vs s).1 = .error .dbError ∧
      (add true vs s).2.rolledBack = true) ∧
    ((add_many true vls s).1 = .error .dbError ∧
      (add_many true vls s).2.rolledBack = true) ∧
    ((update true f2 vs s).1 = .error .dbError ∧
      (update true f2 vs s).2.rolledBack = true) ∧
    ((delete true fs s).1 = .error .dbError ∧
      (delete true fs s).2.rolledBack = true) ∧
    ((upsert true uf vs s).1 = .error .dbError ∧
      (upsert true uf vs s).2.rolledBack = true) ∧
    ((bulk_update true vls s).1 = .error .dbError ∧
      (bulk_update true vls s).2.rolledBack = true) := by
  have he : fs.isEmpty = false := by
    cases fs with
    | nil => exact absurd rfl hfs
    | cons a l => rfl
  refine ⟨⟨rfl, h⟩, ⟨rfl, h⟩, ⟨rfl, h⟩, ⟨rfl, h⟩, ⟨rfl, h⟩, ⟨rfl, h⟩,
    ⟨rfl, rfl⟩, ⟨rfl, rfl⟩, ⟨rfl, rfl⟩, ?_, ⟨rfl, rfl⟩, ⟨rfl, rfl⟩⟩
  unfold delete
  rw [he]
  exact ⟨rfl, rfl⟩

/-- C1 witness: the amended theorem applied at a concrete session. -/
theorem C1_amended_witness :
    (find_one_or_none_by_id true 1 ⟨[], false, 0⟩).1 = Except.error PyError.dbError ∧
    (find_one_or_none_by_id true 1 ⟨[], false, 0⟩).2.rolledBack = false :=
  (C1_amended ⟨[], false, 0⟩ rfl 1 [] [("id", Val.i 1)] (by decide)
    [] none [] [] [] 1 10).1

/-- C3: a body run under `DatabaseSessionManager.transaction` is committed
when it completes normally, and on any error the session is rolled back,
exactly the body's error is re-raised, and the durable store is unchanged
(whenever the body itself only touched the session view). -/
theorem C3_transaction (body : TxSession → Except PyError Unit × TxSession)
    (s : TxSession) :
    (∀ s1, body s = (.ok (), s1) →
      transaction body s = (.ok (), commitTx s1) ∧
      (transaction body s).2.committed = true ∧
      (transaction body s).2.db = s1.view) ∧
    (∀ e s1, body s = (.error e, s1) →
      transaction body s = (.error e, rollbackTx s1) ∧
      (transaction body s).2.rolledBack = true ∧
      (s1.db = s.db → (transaction body s).2.db = s.db)) := by
  constructor
  · intro s1 hb
    unfold transaction
    rw [hb]
    exact ⟨rfl, rfl, rfl⟩
  · intro e s1 hb
    unfold transaction
    rw [hb]
    exact ⟨rfl, rfl, fun hdb => hdb⟩

/-- C3 witness: the theorem applied to a concrete committing body and a
concrete failing body. -/
theorem C3_transaction_witness :
    transaction (fun t => (Except.ok (), t)) ⟨[], [], false, false⟩ =
      (Except.ok (), commitTx ⟨[], [], false, false⟩) ∧
    transaction (fun t => (Except.error PyError.dbError, t)) ⟨[], [], false, false⟩ =
      (Except.error PyError.dbError, rollbackTx ⟨[], [], false, false⟩) :=
  ⟨((C3_transaction (fun t => (Except.ok (), t)) ⟨[], [], false, false⟩).1
      ⟨[], [], false, false⟩ rfl).1,
   ((C3_transaction (fun t => (Except.error PyError.dbError, t)) ⟨[], [], false, false⟩).2
      PyError.dbError ⟨[], [], false, false⟩ rfl).1⟩

/-- C4: deleting with an empty filter dict fails with the `ValueError` and
returns the session untouched (same store, no data-layer call issued, no
rollback); with at least one set filter field the operation issues the
delete (the data-layer call count strictly increases). -/
theorem C4_delete (dbFail : Bool) (fs : Filt) (s : Session) :
    (fs = [] →
      delete dbFail fs s =
        (.error (.valueError "At least one filter is required for deletion."), s)) ∧
    (fs ≠ [] → s.execs < (delete dbFail fs s).2.execs) := by
  constructor
  · intro h
    subst h
    rfl
  · intro h
    have he : fs.isEmpty = false := by
      cases fs with
      | nil => exact absurd rfl h
      | cons a l => rfl
    unfold delete
    rw [he]
    cases dbFail with
    | true =>
      show s.execs < s.execs + 1
      omega
    | false =>
      show s.execs < s.execs + 1 + 1
      omega

/-- C4 witness: the theorem applied at an empty and a one-field filter. -/
theorem C4_delete_witness :
    delete false [] ⟨[], false, 0⟩ =
      (.error (.valueError "At least one filter is required for deletion."),
        ⟨[], false, 0⟩) ∧
    (⟨[], false, 0⟩ : Session).execs < (delete false [("id", Val.i 1)] ⟨[], false, 0⟩).2.execs :=
  ⟨(C4_delete false [] ⟨[], false, 0⟩).1 rfl,
   (C4_delete false [("id", Val.i 1)] ⟨[], false, 0⟩).2 (by decide)⟩

/-- C6: the admin guard returns the resolved user exactly when the user's
role id lies in the allow-set {3, 4}, and fails with the forbidden error
(403, "Insufficient permissions") for every other role id. -/
theorem C6_admin_guard (u : UserR) :
    (get_current_admin_user u = .ok u ↔ (u.roleId = 3 ∨ u.roleId = 4)) ∧
    (¬(u.roleId = 3 ∨ u.roleId = 4) →
      get_current_admin_user u = .error (.http 403 "Insufficient permissions")) := by
  have hb : ((u.roleId == 3 || u.roleId == 4) = true) ↔ (u.roleId = 3 ∨ u.roleId = 4) := by
    simp
  constructor
  · constructor
    · intro h
      by_cases hc : (u.roleId == 3 || u.roleId == 4) = true
      · exact hb.mp hc
      · unfold get_current_admin_user at h
        rw [if_neg hc] at h
        exact Except.noConfusion h
    · intro h
      unfold get_current_admin_user
      rw [if_pos (hb.mpr h)]
  · intro h
    unfold get_current_admin_user
    rw [if_neg (fun hc => h (hb.mp hc))]

/-- C6 witness: the guard rejects a concrete user with role id 2. -/
theorem C6_admin_guard_witness :
    get_current_admin_user ⟨1, "a@x.com", "h", 2⟩ =
      .error (.http 403 "Insufficient permissions") :=
  (C6_admin_guard ⟨1, "a@x.com", "h", 2⟩).2 (by decide)

/-- C10: a validly-signed, unexpired token whose subject claim is the
non-numeric string "abc" makes `get_current_user` fail with the uncaught
`ValueError` from `int(user_id)`, which is none of the defined
`HTTPException` error kinds. -/
theorem C10_int_conversion :
    (get_current_user false (TokenM.valid [("sub", "abc")]) [] =
      Except.error (PyError.valueError "invalid literal for int(): abc")) ∧
    ∀ (c : Nat) (d : String),
      get_current_user false (TokenM.valid [("sub", "abc")]) [] ≠
        Except.error (PyError.http c d) := by
  have h0 : get_current_user false (TokenM.valid [("sub", "abc")]) [] =
      Except.error (PyError.valueError "invalid literal for int(): abc") := rfl
  refine ⟨h0, fun c d h => ?_⟩
  rw [h0] at h
  exact PyError.noConfusion (Except.error.inj h)

/-- C10 witness: the first conjunct of the theorem, restated closed. -/
theorem C10_int_conversion_witness :
    get_current_user false (TokenM.valid [("sub", "abc")]) [] =
      Except.error (PyError.valueError "invalid literal for int(): abc") :=
  C10_int_conversion.1

theorem find_map_set_self {β : Type} (d : List (String × β)) (k : String) (v : β)
    (h : d.any (fun p => p.1 == k) = true) :
    (d.map (fun p => if p.1 == k then (k, v) else p)).find? (fun p => p.1 == k) =
      some (k, v) := by
  induction d with
  | nil => exact Bool.noConfusion h
  | cons a l ih =>
    rw [List.map_cons]
    by_cases ha : (a.1 == k) = true
    · rw [if_pos ha]
      exact List.find?_cons_of_pos _ (by simp)
    · rw [if_neg ha, @List.find?_cons_of_neg _ (fun p => p.1 == k) a _ ha]
      apply ih
      rw [List.any_cons, Bool.or_eq_true] at h
      rcases h with h1 | h2
      · exact absurd h1 ha
      · exact h2

theorem find_map_set_ne {β : Type} (d : List (String × β)) (k k' : String) (v : β)
    (hne : ¬(k' = k)) :
    (d.map (fun p => if p.1 == k then (k, v) else p)).find? (fun p => p.1 == k') =
      d.find? (fun p => p.1 == k') := by
  induction d with
  | nil => rfl
  | cons a l ih =>
    rw [List.map_cons]
    by_cases ha : (a.1 == k) = true
    · rw [if_pos ha]
      have hak : a.1 = k := eq_of_beq ha
      have h1 : ¬((k, v).1 == k') = true := fun hx => hne (eq_of_beq hx).symm
      have h2 : ¬(a.1 == k') = true := fun hx =>
        hne ((hak.symm.trans (eq_of_beq hx)).symm)
      rw [@List.find?_cons_of_neg _ (fun p => p.1 == k') (k, v) _ h1,
        @List.find?_cons_of_neg _ (fun p => p.1 == k') a _ h2, ih]
    · rw [if_neg ha]
      by_cases hb : (a.1 == k') = true
      · rw [@List.find?_cons_of_pos _ (fun p => p.1 == k') a _ hb,
          @List.find?_cons_of_pos _ (fun p => p.1 == k') a _ hb]
      · rw [@List.find?_cons_of_neg _ (fun p => p.1 == k') a _ hb,
          @List.find?_cons_of_neg _ (fun p => p.1 == k') a _ hb, ih]

theorem find_append_set_self {β : Type} (d : List (String × β)) (k : String) (v : β)
    (h : d.any (fun p => p.1 == k) = false) :
    (d ++ [(k, v)]).find? (fun p => p.1 == k) = some (k, v) := by
  induction d with
  | nil => exact List.find?_cons_of_pos _ (by simp)
  | cons a l ih =>
    rw [List.cons_append]
    rw [List.any_cons] at h
    obtain ⟨h1, h2⟩ := Bool.or_eq_false_iff.mp h
    rw [@List.find?_cons_of_neg _ (fun p => p.1 == k) a _ (by simp [h1])]
    exact ih h2

theorem find_append_set_ne {β : Type} (d : List (String × β)) (k k' : String) (v : β)
    (hne : ¬(k' = k)) :
    (d ++ [(k, v)]).find? (fun p => p.1 == k') = d.find? (fun p => p.1 == k') := by
  have hk : ¬((k, v).1 == k') = true := fun hx => hne (eq_of_beq hx).symm
  rw [List.find?_append]
  have h0 : List.find? (fun p => p.1 == k') [(k, v)] = none := by
    rw [@List.find?_cons_of_neg _ (fun p => p.1 == k') (k, v) _ hk]
    rfl
  rw [h0]
  exact Option.or_none

theorem getVal_setVal (r : Rec) (k k' : String) (v : Val) :
    getVal (setVal r k v) k' = if k' = k then some v else getVal r k' := by
  unfold getVal setVal
  by_cases h : r.any (fun p => p.1 == k) = true
  · rw [if_pos h]
    by_cases hk : k' = k
    · subst hk
      rw [find_map_set_self r k' v h, if_pos rfl]
      rfl
    · rw [find_map_set_ne r k k' v hk, if_neg hk]
  · rw [if_neg h]
    by_cases hk : k' = k
    · subst hk
      rw [find_append_set_self r k' v (Bool.eq_false_iff.mpr h), if_pos rfl]
      rfl
    · rw [find_append_set_ne r k k' v hk, if_neg hk]

theorem lookupClaim_dictSet (d : Claims) (k k' : String) (v : Claim) :
    lookupClaim (dictSet d k v) k' = if k' = k then some v else lookupClaim d k' := by
  unfold lookupClaim dictSet
  by_cases h : d.any (fun p => p.1 == k) = true
  · rw [if_pos h]
    by_cases hk : k' = k
    · subst hk
      rw [find_map_set_self d k' v h, if_pos rfl]
      rfl
    · rw [find_map_set_ne d k k' v hk, if_neg hk]
  · rw [if_neg h]
    by_cases hk : k' = k
    · subst hk
      rw [find_append_set_self d k' v (Bool.eq_false_iff.mpr h), if_pos rfl]
      rfl
    · rw [find_append_set_ne d k k' v hk, if_neg hk]

theorem getVal_applyValues_of_not_key (r : Rec) (vs : Filt) (k : String)
    (h : ∀ p ∈ vs, ¬(p.1 = k)) :
    getVal (applyValues r vs) k = getVal r k := by
  induction vs generalizing r with
  | nil => rfl
  | cons a l ih =>
    show getVal (applyValues (setVal r a.1 a.2) l) k = getVal r k
    rw [ih (setVal r a.1 a.2) (fun p hp => h p (List.mem_cons_of_mem a hp))]
    rw [getVal_setVal, if_neg (fun hk => h a (List.mem_cons_self a l) hk.symm)]

theorem keys_ne_of_getVal_none (vs : Rec) (k : String) (h : getVal vs k = none) :
    ∀ p ∈ vs, ¬(p.1 = k) := by
  intro p hp hpk
  unfold getVal at h
  have hf : vs.find? (fun p => p.1 == k) = none := Option.map_eq_none'.mp h
  exact (List.find?_eq_none.mp hf p hp) (by simp [hpk])

theorem filter_email_nil (users : List UserR) (e : String)
    (h : ∀ u ∈ users, ¬(u.email = e)) :
    users.filter (fun x => x.email == e) = [] := by
  apply List.filter_eq_nil_iff.mpr
  intro u hu hx
  exact h u hu (eq_of_beq hx)

theorem filter_email_single (users : List UserR) (u : UserR)
    (hnd : (users.map (fun x => x.email)).Nodup) (hu : u ∈ users) :
    users.filter (fun x => x.email == u.email) = [u] := by
  induction users with
  | nil => cases hu
  | cons a l ih =>
    rw [List.map_cons, List.nodup_cons] at hnd
    obtain ⟨ha, hl⟩ := hnd
    rcases List.mem_cons.mp hu with rfl | hmem
    · rw [List.filter_cons, if_pos (by simp)]
      have hnil : l.filter (fun x => x.email == u.email) = [] :=
        filter_email_nil l u.email
          (fun x hx hxe => ha (hxe ▸ List.mem_map_of_mem _ hx))
      rw [hnil]
    · have hne : ¬(a.email == u.email) = true := fun hx =>
        ha ((eq_of_beq hx).symm ▸ List.mem_map_of_mem (fun x => x.email) hmem)
      rw [List.filter_cons, if_neg hne]
      exact ih hl hmem

theorem users_find_some (users : List UserR) (u : UserR)
    (hnd : (users.map (fun x => x.email)).Nodup) (hu : u ∈ users) :
    users_find_one_or_none false u.email users = .ok (some u) := by
  show scalar_one_or_none (users.filter (fun x => x.email == u.email)) = .ok (some u)
  rw [filter_email_single users u hnd hu]
  rfl

theorem users_find_none (users : List UserR) (e : String)
    (h : ∀ u ∈ users, ¬(u.email = e)) :
    users_find_one_or_none false e users = .ok none := by
  show scalar_one_or_none (users.filter (fun x => x.email == e)) = .ok none
  rw [filter_email_nil users e h]
  rfl

theorem authenticate_user_wrong_password (verify : String → String → Bool)
    (users : List UserR) (u : UserR) (password : String)
    (hnd : (users.map (fun x => x.email)).Nodup) (hu : u ∈ users)
    (hv : verify password u.password = false) :
    authenticate_user verify false u.email password users = .ok none := by
  unfold authenticate_user
  rw [users_find_some users u hnd hu]
  show (if !(verify password u.password) then Except.ok none
    else Except.ok (some u)) = Except.ok none
  rw [hv]
  rfl

theorem authenticate_user_no_user (verify : String → String → Bool)
    (users : List UserR) (e password : String)
    (h : ∀ u ∈ users, ¬(u.email = e)) :
    authenticate_user verify false e password users = .ok none := by
  unfold authenticate_user
  rw [users_find_none users e h]

theorem authenticate_user_ok (verify : String → String → Bool)
    (users : List UserR) (u : UserR) (password : String)
    (hnd : (users.map (fun x => x.email)).Nodup) (hu : u ∈ users)
    (hv : verify password u.password = true) :
    authenticate_user verify false u.email password users = .ok (some u) := by
  unfold authenticate_user
  rw [users_find_some users u hnd hu]
  show (if !(verify password u.password) then Except.ok none
    else Except.ok (some u)) = Except.ok (some u)
  rw [hv]
  rfl

/-- C2: with a working data layer and unique stored emails, logging in with
a stored user's email and a password the verifier rejects produces exactly
the same unauthorized response (status 401, detail "Incorrect email or
password") as logging in with an email belonging to no stored user — the
observable response does not reveal whether the email exists. -/
theorem C2_login_indistinguishable (verify : String → String → Bool)
    (users : List UserR) (hnd : (users.map (fun x => x.email)).Nodup) :
    (∀ u ∈ users, ∀ (password : String) (now : Int),
      verify password u.password = false →
      auth_user verify false u.email password users now =
        .error (.http 401 "Incorrect email or password")) ∧
    (∀ (email password : String) (now : Int), (∀ u ∈ users, ¬(u.email = email)) →
      auth_user verify false email password users now =
        .error (.http 401 "Incorrect email or password")) := by
  constructor
  · intro u hu password now hv
    unfold auth_user
    rw [authenticate_user_wrong_password verify users u password hnd hu hv]
  · intro email password now h
    unfold auth_user
    rw [authenticate_user_no_user verify users email password h]

/-- C2 witness: the two branches of the theorem coincide on a concrete
store, wrong-password request and unknown-email request. -/
theorem C2_login_indistinguishable_witness :
    auth_user (fun _ _ => false) false "a@x.com" "p" [⟨1, "a@x.com", "h", 1⟩] 0 =
      .error (.http 401 "Incorrect email or password") ∧
    auth_user (fun _ _ => false) false "b@x.com" "p" [⟨1, "a@x.com", "h", 1⟩] 0 =
      .error (.http 401 "Incorrect email or password") :=
  ⟨(C2_login_indistinguishable (fun _ _ => false) [⟨1, "a@x.com", "h", 1⟩]
      (by decide)).1 ⟨1, "a@x.com", "h", 1⟩ (by decide) "p" 0 rfl,
   (C2_login_indistinguishable (fun _ _ => false) [⟨1, "a@x.com", "h", 1⟩]
      (by decide)).2 "b@x.com" "p" 0 (by decide)⟩

/-- C5: the issued token's claim set is the supplied data plus an `exp`
claim at issue-time plus 30 days (any other key reads exactly as in the
supplied data), and a successful login issues the token built from
`{"sub": str(user.id)}`, whose subject claim is the stringified identifier
of the authenticated user. -/
theorem C5_token_claims (data : Claims) (now : Int) :
    (lookupClaim (create_access_token data now) "exp" =
      some (Claim.t (now + 30 * 86400))) ∧
    (∀ k, ¬(k = "exp") →
      lookupClaim (create_access_token data now) k = lookupClaim data k) ∧
    (∀ (verify : String → String → Bool) (users : List UserR) (u : UserR)
        (password : String),
      (users.map (fun x => x.email)).Nodup → u ∈ users →
      verify password u.password = true →
      auth_user verify false u.email password users now =
        .ok (create_access_token [("sub", Claim.s (toString u.id))] now) ∧
      lookupClaim (create_access_token [("sub", Claim.s (toString u.id))] now) "sub" =
        some (Claim.s (toString u.id))) := by
  refine ⟨?_, ?_, ?_⟩
  · unfold create_access_token
    rw [lookupClaim_dictSet, if_pos rfl]
  · intro k hk
    unfold create_access_token
    rw [lookupClaim_dictSet, if_neg hk]
  · intro verify users u password hnd hu hv
    constructor
    · unfold auth_user
      rw [authenticate_user_ok verify users u password hnd hu hv]
    · unfold create_access_token
      rw [lookupClaim_dictSet, if_neg (by decide)]
      rfl

/-- C5 witness: the theorem at concrete data and a concrete login. -/
theorem C5_token_claims_witness :
    lookupClaim (create_access_token [("sub", Claim.s "1")] 0) "exp" =
      some (Claim.t (0 + 30 * 86400)) ∧
    auth_user (fun _ _ => true) false "a@x.com" "p" [⟨1, "a@x.com", "h", 1⟩] 0 =
      .ok (create_access_token [("sub", Claim.s (toString (1 : Int)))] 0) :=
  ⟨(C5_token_claims [("sub", Claim.s "1")] 0).1,
   ((C5_token_claims [("sub", Claim.s "1")] 0).2.2 (fun _ _ => true)
      [⟨1, "a@x.com", "h", 1⟩] ⟨1, "a@x.com", "h", 1⟩ "p"
      (by decide) (by decide) rfl).1⟩

/-- C7 counterexample: upserting values that themselves carry an `id` onto
an existing matching record overwrites the record's identifier — the record
matched on email had id 1, the returned mutated record has id 2, so the
identifier is not unchanged. -/
theorem C7_counterexample :
    (upsert false ["email"] [("id", Val.i 2), ("email", Val.s "a")]
        ⟨[[("id", Val.i 1), ("email", Val.s "a")]], false, 0⟩).1 =
      Except.ok [("id", Val.i 2), ("email", Val.s "a")] ∧
    getVal [("id", Val.i 2), ("email", Val.s "a")] "id" ≠
      getVal [("id", Val.i 1), ("email", Val.s "a")] "id" :=
  ⟨rfl, by decide⟩

/-- C7 (amended): with a working data layer, when no stored record matches
the unique-field subset of the supplied values the upsert inserts and
returns a new record; when exactly one record matches and the supplied
values do not themselves set the `id` field, that record is mutated in
place with the supplied values and returned with its identifier
unchanged. -/
theorem C7_amended (uf : List String) (vs : Rec) (s : Session) :
    (s.store.filter (matchesF (upsertFilter uf vs)) = [] →
      upsert false uf vs s =
        (.ok (assignId s.store vs),
          { issue (issue s) with store := s.store ++ [assignId s.store vs] })) ∧
    (∀ existing, s.store.filter (matchesF (upsertFilter uf vs)) = [existing] →
      getVal vs "id" = none →
      upsert false uf vs s =
        (.ok (applyValues existing vs),
          { issue (issue s) with
            store := replaceFirst (matchesF (upsertFilter uf vs))
              (applyValues existing vs) s.store }) ∧
      getVal (applyValues existing vs) "id" = getVal existing "id") := by
  constructor
  · intro h
    have hf : find_one_or_none false (upsertFilter uf vs) s = (.ok none, issue s) := by
      show (scalar_one_or_none (s.store.filter (matchesF (upsertFilter uf vs))),
        issue s) = (.ok none, issue s)
      rw [h]
      rfl
    simp only [upsert, hf]
  · intro existing hex hid
    have hf : find_one_or_none false (upsertFilter uf vs) s =
        (.ok (some existing), issue s) := by
      show (scalar_one_or_none (s.store.filter (matchesF (upsertFilter uf vs))),
        issue s) = (.ok (some existing), issue s)
      rw [hex]
      rfl
    constructor
    · simp only [upsert, hf]
    · exact getVal_applyValues_of_not_key existing vs "id"
        (keys_ne_of_getVal_none vs "id" hid)

/-- C7 witness: the amended theorem's update branch at a concrete store. -/
theorem C7_amended_witness :
    upsert false ["email"] [("email", Val.s "b"), ("name", Val.s "x")]
        ⟨[[("id", Val.i 1), ("email", Val.s "b")]], false, 0⟩ =
      (.ok (applyValues [("id", Val.i 1), ("email", Val.s "b")]
          [("email", Val.s "b"), ("name", Val.s "x")]),
        { issue (issue ⟨[[("id", Val.i 1), ("email", Val.s "b")]], false, 0⟩) with
          store := replaceFirst
            (matchesF (upsertFilter ["email"] [("email", Val.s "b"), ("name", Val.s "x")]))
            (applyValues [("id", Val.i 1), ("email", Val.s "b")]
              [("email", Val.s "b"), ("name", Val.s "x")])
            [[("id", Val.i 1), ("email", Val.s "b")]] }) ∧
    getVal (applyValues [("id", Val.i 1), ("email", Val.s "b")]
        [("email", Val.s "b"), ("name", Val.s "x")]) "id" =
      getVal [("id", Val.i 1), ("email", Val.s "b")] "id" :=
  (C7_amended ["email"] [("email", Val.s "b"), ("name", Val.s "x")]
      ⟨[[("id", Val.i 1), ("email", Val.s "b")]], false, 0⟩).2
    [("id", Val.i 1), ("email", Val.s "b")] (by decide) (by decide)

/-- C8: with a working data layer and unique stored emails, registering an
email that belongs to a stored user fails with the conflict error (409,
"User already exists") and leaves the user store unchanged, for every
password and confirmation string. -/
theorem C8_register_conflict (users : List UserR)
    (email password confirm : String)
    (hnd : (users.map (fun x => x.email)).Nodup)
    (hex : ∃ u ∈ users, u.email = email) :
    register_user false email password confirm users =
      (.error (.http 409 "User already exists"), users) := by
  obtain ⟨u, hu, he⟩ := hex
  subst he
  unfold register_user
  rw [users_find_some users u hnd hu]

/-- C8 witness: a concrete duplicate registration. -/
theorem C8_register_conflict_witness :
    register_user false "a@x.com" "zzzzz" "wwwww" [⟨1, "a@x.com", "h", 1⟩] =
      (.error (.http 409 "User already exists"), [⟨1, "a@x.com", "h", 1⟩]) :=
  C8_register_conflict [⟨1, "a@x.com", "h", 1⟩] "a@x.com" "zzzzz" "wwwww"
    (by decide) ⟨⟨1, "a@x.com", "h", 1⟩, by decide, rfl⟩

/-- C9 counterexample: a validly-signed token with the non-numeric subject
claim "abc" makes the optional current-user resolution raise the uncaught
`ValueError` from `int(user_id)` instead of returning "no user" — it does
not hold that the optional variant never raises. -/
theorem C9_counterexample :
    (get_current_user_optional false (some (TokenM.valid [("sub", "abc")])) [] =
      Except.error (PyError.valueError "invalid literal for int(): abc")) ∧
    ∀ r : Option UserR,
      get_current_user_optional false (some (TokenM.valid [("sub", "abc")])) [] ≠
        Except.ok r := by
  have h0 : get_current_user_optional false (some (TokenM.valid [("sub", "abc")])) [] =
      Except.error (PyError.valueError "invalid literal for int(): abc") := rfl
  refine ⟨h0, fun r h => ?_⟩
  rw [h0] at h
  exact Except.noConfusion h

/-- C9 (amended): the optional current-user resolution returns "no user"
(`none`, without raising) on each of the enumerated failures — missing
token, invalid or expired token, missing or empty subject claim, and (with
the data layer working) a numeric subject naming no stored user; it can
still raise on a non-numeric subject claim. -/
theorem C9_amended (users : List UserR) (dbFail : Bool)
    (payload : List (String × String)) :
    (get_current_user_optional dbFail none users = .ok none) ∧
    (get_current_user_optional dbFail (some TokenM.invalid) users = .ok none) ∧
    (lookupS payload "sub" = none →
      get_current_user_optional dbFail (some (TokenM.valid payload)) users = .ok none) ∧
    (lookupS payload "sub" = some "" →
      get_current_user_optional dbFail (some (TokenM.valid payload)) users = .ok none) ∧
    (∀ (uid : String) (n : Int),
      lookupS payload "sub" = some uid → ¬(uid = "") → pyInt uid = some n →
      users.filter (fun x => x.id == n) = [] →
      get_current_user_optional false (some (TokenM.valid payload)) users = .ok none) := by
  refine ⟨rfl, rfl, ?_, ?_, ?_⟩
  · intro h
    simp only [get_current_user_optional, h]
  · intro h
    simp only [get_current_user_optional, h]
    rfl
  · intro uid n hsub hne hint hfil
    have hdb : users_find_one_or_none_by_id false n users = .ok none := by
      show scalar_one_or_none (users.filter (fun x => x.id == n)) = .ok none
      rw [hfil]
      rfl
    simp only [get_current_user_optional, hsub, if_neg hne, hint, hdb]

/-- C9 witness: the amended theorem at a missing subject claim and at a
numeric subject naming no stored user. -/
theorem C9_amended_witness :
    get_current_user_optional false (some (TokenM.valid [])) [] = .ok none ∧
    get_current_user_optional false (some (TokenM.valid [("sub", "7")])) [] = .ok none :=
  ⟨(C9_amended [] false []).2.2.1 rfl,
   (C9_amended [] false [("sub", "7")]).2.2.2.2 "7" 7 rfl (by decide) rfl rfl⟩
